import Mathlib

/-!
Shallow embedding of `src/apps/web/src-tauri/src/main.rs` of the pro-chat
repository: the lifecycle supervisor that resolves paths, creates the writable
data directories, plans the worker launch (interpreter and entry artifact),
builds the worker environment, spawns the worker, and tears it down on the
window-close event.

Filesystem paths are modelled as lists of components (`PathBuf::join` appends
one component; `render` is `to_string_lossy` on a Unix-style path).  The
outside world visible to `spawn_api` is a `World`: the two base directories the
host framework resolves (`Option` models the fallible `resource_dir()` /
`app_data_dir()` calls), the set of existing filesystem paths, an oracle
`canCreate` for whether a `fs::create_dir_all` that has something to create
succeeds, an oracle `spawnOk` for whether the OS accepts the spawn, the list of
spawn calls issued so far, and the contents of files (which `spawn_api`
provably never reads — it only tests existence).
-/

set_option autoImplicit false

namespace ProChat

/-- A filesystem path as a list of components; an absolute Unix path starts
with the empty component, so `["", "home", "u"]` renders as `/home/u`. -/
abbrev Path := List String

/-- `PathBuf::to_string_lossy` for a path built by successive `join`s. -/
def render (p : Path) : String :=
  String.intercalate "/" p

/-- The nonempty prefixes of a path: every directory `fs::create_dir_all p`
would have to create, `p` itself included. -/
def ancestors (p : Path) : List Path :=
  (List.range p.length).map (fun i => p.take (i + 1))

/-- Embedding of `fs::create_dir_all` over the set of existing paths.  If the
directory and all its ancestors already exist it succeeds and changes nothing;
otherwise it consults the failure oracle `canCreate` (permissions, disk full)
and on success adds every missing ancestor. -/
def create_dir_all (existing : List Path) (canCreate : Path → Bool) (p : Path) :
    Option (List Path) :=
  if (ancestors p).all (fun q => decide (q ∈ existing)) then
    some existing
  else if canCreate p then
    some (existing ++ (ancestors p).filter (fun q => decide (q ∉ existing)))
  else
    none

/-- Embedding of Rust `str::replace(' ', "%20")`: a `char` pattern matches
single characters, so each space becomes the three characters `%20` and every
other character is kept. -/
def replaceSpaces : List Char → List Char
  | [] => []
  | c :: cs =>
    if c = ' ' then '%' :: '2' :: '0' :: replaceSpaces cs
    else c :: replaceSpaces cs

/-- The `DATABASE_URL` derivation in `spawn_api`:
`format!("file://{...}", db_path.to_string_lossy().replace(' ', "%20"))`. -/
def db_url_of (dbPath : String) : String :=
  "file://" ++ String.mk (replaceSpaces dbPath.data)

/-- `std::process::Stdio` configurations used by the source. -/
inductive Stdio where
  | null
  | inherit
  | piped
deriving DecidableEq, Repr

/-- Everything `Command::new(..).arg(..).current_dir(..).env(..)...` configures
before `.spawn()`. -/
structure CommandSpec where
  program : String
  args : List String
  cwd : String
  envs : List (String × String)
  stdin : Stdio
  stdout : Stdio
  stderr : Stdio
deriving DecidableEq, Repr

/-- A `std::process::Child` handle, remembering the command it was spawned
from. -/
structure Child where
  spec : CommandSpec
deriving DecidableEq, Repr

/-- The errors `spawn_api` can return (`Box<dyn Error>` in the source):
path-resolution failure from the host framework, `io::Error` from
`fs::create_dir_all`, the formatted "API entry not found at ..." string (which
carries the expected path), and spawn refusal by the OS. -/
inductive ApiError where
  | resolutionError
  | ioError (p : Path)
  | entryMissing (p : Path)
  | spawnError
deriving DecidableEq, Repr

/-- The world `spawn_api` interacts with.  `contents` assigns file contents to
paths; `spawn_api` never reads it. -/
structure World where
  resourceDir : Option Path
  appDataDir : Option Path
  existing : List Path
  canCreate : Path → Bool
  spawnOk : Bool
  spawned : List CommandSpec
  contents : Path → String

/-- Embedding of `spawn_api` (main.rs lines 11–60), step for step: resolve the
resource and app-data directories, create `app_data_dir`, derive the api /
entry / node_modules / storage / memory paths, create the storage and memory
roots, derive `DATABASE_URL`, fail if the entry artifact does not exist, pick
the bundled `bin/node` if present else the bare name `node`, and spawn with
the entry argument, the api working directory, the four environment variables,
stdin null and stdout/stderr inherited.  Returns the updated world together
with `Result<Child, Box<dyn Error>>`. -/
def spawn_api (w : World) : World × Except ApiError Child :=
  match w.resourceDir with
  | none => (w, Except.error ApiError.resolutionError)
  | some resource_dir =>
    match w.appDataDir with
    | none => (w, Except.error ApiError.resolutionError)
    | some app_data_dir =>
      match create_dir_all w.existing w.canCreate app_data_dir with
      | none => (w, Except.error (ApiError.ioError app_data_dir))
      | some ex1 =>
        let api_dir := resource_dir ++ ["api"]
        let entry := api_dir ++ ["dist", "index.js"]
        let node_modules := resource_dir ++ ["node_modules"]
        let storage_root := app_data_dir ++ ["storage"]
        let memory_root := app_data_dir ++ ["memory"]
        match create_dir_all ex1 w.canCreate storage_root with
        | none => ({ w with existing := ex1 }, Except.error (ApiError.ioError storage_root))
        | some ex2 =>
          match create_dir_all ex2 w.canCreate memory_root with
          | none => ({ w with existing := ex2 }, Except.error (ApiError.ioError memory_root))
          | some ex3 =>
            let db_path := app_data_dir ++ ["pro-chat.db"]
            let db_url := db_url_of (render db_path)
            if entry ∈ ex3 then
              let bundled_node := resource_dir ++ ["bin", "node"]
              let node_command : String :=
                if bundled_node ∈ ex3 then render bundled_node else "node"
              let spec : CommandSpec :=
                { program := node_command
                  args := [render entry]
                  cwd := render api_dir
                  envs := [("NODE_PATH", render node_modules),
                           ("DATABASE_URL", db_url),
                           ("STORAGE_PATH", render storage_root),
                           ("MEMORY_PATH", render memory_root)]
                  stdin := Stdio.null
                  stdout := Stdio.inherit
                  stderr := Stdio.inherit }
              if w.spawnOk then
                ({ w with existing := ex3, spawned := w.spawned ++ [spec] },
                 Except.ok (Child.mk spec))
              else
                ({ w with existing := ex3 }, Except.error ApiError.spawnError)
            else
              ({ w with existing := ex3 }, Except.error (ApiError.entryMissing entry))

/-- The directory-creation step of `spawn_api`: the three `fs::create_dir_all`
calls on `app_data_dir`, `app_data_dir/storage`, `app_data_dir/memory`, in
source order, over the set of existing paths. -/
def create_dir_step (existing : List Path) (canCreate : Path → Bool) (appData : Path) :
    Option (List Path) :=
  (create_dir_all existing canCreate appData).bind fun e1 =>
    (create_dir_all e1 canCreate (appData ++ ["storage"])).bind fun e2 =>
      create_dir_all e2 canCreate (appData ++ ["memory"])

/-- The executable-selection policy inside `spawn_api`: the bundled
`resourceDir/bin/node` if that path exists, otherwise the bare name `node`. -/
def node_command_of (resource_dir : Path) (existing : List Path) : String :=
  if resource_dir ++ ["bin", "node"] ∈ existing then
    render (resource_dir ++ ["bin", "node"])
  else
    "node"

/-- The command configuration `spawn_api` builds once the entry artifact
exists: the selected interpreter, the entry-artifact argument, the api working
directory, the four environment variables, stdin null, stdout and stderr
inherited. -/
def plan_spec (resource_dir app_data_dir : Path) (existing : List Path) : CommandSpec :=
  { program := node_command_of resource_dir existing
    args := [render (resource_dir ++ ["api", "dist", "index.js"])]
    cwd := render (resource_dir ++ ["api"])
    envs := [("NODE_PATH", render (resource_dir ++ ["node_modules"])),
             ("DATABASE_URL", db_url_of (render (app_data_dir ++ ["pro-chat.db"]))),
             ("STORAGE_PATH", render (app_data_dir ++ ["storage"])),
             ("MEMORY_PATH", render (app_data_dir ++ ["memory"]))]
    stdin := Stdio.null
    stdout := Stdio.inherit
    stderr := Stdio.inherit }

/-- The contents of the `Mutex<Option<Child>>` inside `ApiProcess`, with its
poison flag: `state.0.lock()` returns `Err` when poisoned, and the close
handler ignores that case. -/
structure MutexSlot where
  poisoned : Bool
  slot : Option Child
deriving DecidableEq, Repr

/-- The host framework's managed-state store, restricted to the single
`ApiProcess` key: `none` models `try_state::<ApiProcess>()` returning `None`
(startup never stored a supervisor). -/
structure StoreState where
  managed : Option MutexSlot
deriving DecidableEq, Repr

/-- What the setup closure produces: the world after its effects, the
managed-state store, the `eprintln!` diagnostic log, and the closure's return
value (the source always ends in `Ok(())`). -/
structure SetupResult where
  world : World
  store : StoreState
  log : List ApiError
  ret : Except String Unit

/-- Embedding of the `.setup(|app| ...)` closure (main.rs lines 65–77): in a
release build (`!cfg!(debug_assertions)`) run `spawn_api`; on success manage an
`ApiProcess` holding the child, on error print the diagnostic and continue; in
a debug build do nothing.  Always returns `Ok(())`. -/
def setup (debug_assertions : Bool) (w : World) : SetupResult :=
  if !debug_assertions then
    match spawn_api w with
    | (w', Except.ok child) =>
      { world := w'
        store := StoreState.mk (some (MutexSlot.mk false (some child)))
        log := []
        ret := Except.ok () }
    | (w', Except.error err) =>
      { world := w'
        store := StoreState.mk none
        log := [err]
        ret := Except.ok () }
  else
    { world := w
      store := StoreState.mk none
      log := []
      ret := Except.ok () }

/-- The window events the handler matches on. -/
inductive WindowEvent where
  | closeRequested
  | other
deriving DecidableEq, Repr

/-- Embedding of the `.on_window_event(|window, event| ...)` closure (main.rs
lines 78–88): on `CloseRequested`, look up the `ApiProcess` state (absent is a
no-op), lock the mutex (a poisoned lock is silently skipped), `take()` the
handle out of the slot, and `kill()` the child if one was present, ignoring the
kill result.  Returns the updated store together with the child a termination
signal was sent to, if any. -/
def on_window_event (ev : WindowEvent) (s : StoreState) : StoreState × Option Child :=
  match ev with
  | WindowEvent.closeRequested =>
    match s.managed with
    | none => (s, none)
    | some m =>
      if m.poisoned then (s, none)
      else (StoreState.mk (some (MutexSlot.mk m.poisoned none)), m.slot)
  | WindowEvent.other => (s, none)

/-! ### Helper lemmas about `create_dir_all` -/

/-- A successful `create_dir_all` leaves every ancestor of the requested
directory existing. -/
theorem ancestors_sub_of_create_dir_all (existing : List Path) (cc : Path → Bool) (p : Path)
    (ex' : List Path) (h : create_dir_all existing cc p = some ex') :
    ∀ q ∈ ancestors p, q ∈ ex' := by
  unfold create_dir_all at h
  split at h
  next hall =>
    injection h with h
    subst h
    intro q hq
    exact of_decide_eq_true (List.all_eq_true.mp hall q hq)
  next =>
    split at h
    next =>
      injection h with h
      subst h
      intro q hq
      by_cases hm : q ∈ existing
      · exact List.mem_append_left _ hm
      · exact List.mem_append_right _ (List.mem_filter.mpr ⟨hq, decide_eq_true hm⟩)
    next => exact Option.noConfusion h

/-- `create_dir_all` never removes an existing path. -/
theorem sub_of_create_dir_all (existing : List Path) (cc : Path → Bool) (p : Path)
    (ex' : List Path) (h : create_dir_all existing cc p = some ex') :
    ∀ q ∈ existing, q ∈ ex' := by
  unfold create_dir_all at h
  split at h
  next =>
    injection h with h
    subst h
    exact fun q hq => hq
  next =>
    split at h
    next =>
      injection h with h
      subst h
      exact fun q hq => List.mem_append_left _ hq
    next => exact Option.noConfusion h

/-- When the directory and all its ancestors already exist, `create_dir_all`
succeeds and changes nothing. -/
theorem create_dir_all_of_mem (existing : List Path) (cc : Path → Bool) (p : Path)
    (h : ∀ q ∈ ancestors p, q ∈ existing) :
    create_dir_all existing cc p = some existing := by
  unfold create_dir_all
  rw [if_pos]
  exact List.all_eq_true.mpr fun q hq => decide_eq_true (h q hq)

/-- A nonempty path is among its own ancestors. -/
theorem self_mem_ancestors (p : Path) (h : p ≠ []) : p ∈ ancestors p := by
  have hlen : 0 < p.length := List.length_pos.mpr h
  unfold ancestors
  refine List.mem_map.mpr ⟨p.length - 1, List.mem_range.mpr (Nat.pred_lt (Nat.pos_iff_ne_zero.mp hlen)), ?_⟩
  have hs : p.length - 1 + 1 = p.length := Nat.succ_pred_eq_of_pos hlen
  rw [hs, List.take_length]

/-- Once both base directories resolve and all three directory creations
succeed, `spawn_api` is fully determined by whether the entry artifact exists
and whether the OS accepts the spawn. -/
theorem spawn_api_resolved (w : World) (r a : Path) (ex1 ex2 ex3 : List Path)
    (hr : w.resourceDir = some r) (ha : w.appDataDir = some a)
    (h1 : create_dir_all w.existing w.canCreate a = some ex1)
    (h2 : create_dir_all ex1 w.canCreate (a ++ ["storage"]) = some ex2)
    (h3 : create_dir_all ex2 w.canCreate (a ++ ["memory"]) = some ex3) :
    spawn_api w =
      if r ++ ["api", "dist", "index.js"] ∈ ex3 then
        (if w.spawnOk then
          ({ w with existing := ex3, spawned := w.spawned ++ [plan_spec r a ex3] },
           Except.ok (Child.mk (plan_spec r a ex3)))
        else
          ({ w with existing := ex3 }, Except.error ApiError.spawnError))
      else
        ({ w with existing := ex3 },
         Except.error (ApiError.entryMissing (r ++ ["api", "dist", "index.js"]))) := by
  unfold spawn_api
  simp only [hr, ha, h1, h2, h3, plan_spec, node_command_of, List.append_assoc,
    List.singleton_append, List.cons_append, List.nil_append]

/-- `spawn_api` never reads the `contents` field of the world: two worlds that
agree on everything except file contents produce the same result. -/
theorem spawn_api_snd_contents (rd ad : Option Path) (ex : List Path) (cc : Path → Bool)
    (so : Bool) (spd : List CommandSpec) (f g : Path → String) :
    (spawn_api (World.mk rd ad ex cc so spd g)).2 =
      (spawn_api (World.mk rd ad ex cc so spd f)).2 := by
  cases rd with
  | none => rfl
  | some r =>
  cases ad with
  | none => rfl
  | some a =>
  cases hcd1 : create_dir_all ex cc a with
  | none => simp [spawn_api, hcd1]
  | some e1 =>
  cases hcd2 : create_dir_all e1 cc (a ++ ["storage"]) with
  | none => simp [spawn_api, hcd1, hcd2]
  | some e2 =>
  cases hcd3 : create_dir_all e2 cc (a ++ ["memory"]) with
  | none => simp [spawn_api, hcd1, hcd2, hcd3]
  | some e3 =>
  by_cases hE : r ++ ["api", "dist", "index.js"] ∈ e3 <;>
    by_cases hs : so = true <;>
    simp [spawn_api, hcd1, hcd2, hcd3, hE, hs, List.append_assoc]

/-! ### Claim theorems -/

/-- C9: for all valid resolved paths, running the directory-creation step of
`spawn_api` (the recursive creation of `appDataDir`, `appDataDir/storage`,
`appDataDir/memory`) twice is idempotent: if the first run succeeds and yields
the set of existing paths `ex'`, the second run succeeds as well, creates no
new directories, and raises no error — it returns `some ex'` unchanged. -/
theorem create_dir_step_idempotent (ex : List Path) (cc : Path → Bool) (a : Path)
    (ex' : List Path) (h : create_dir_step ex cc a = some ex') :
    create_dir_step ex' cc a = some ex' := by
  unfold create_dir_step at h ⊢
  rcases Option.bind_eq_some.mp h with ⟨e1, h1, h'⟩
  rcases Option.bind_eq_some.mp h' with ⟨e2, h2, h3⟩
  have m12 := sub_of_create_dir_all _ _ _ _ h2
  have m23 := sub_of_create_dir_all _ _ _ _ h3
  have a1 : ∀ q ∈ ancestors a, q ∈ ex' :=
    fun q hq => m23 _ (m12 _ (ancestors_sub_of_create_dir_all _ _ _ _ h1 q hq))
  have a2 : ∀ q ∈ ancestors (a ++ ["storage"]), q ∈ ex' :=
    fun q hq => m23 _ (ancestors_sub_of_create_dir_all _ _ _ _ h2 q hq)
  have a3 := ancestors_sub_of_create_dir_all _ _ _ _ h3
  rw [create_dir_all_of_mem _ cc _ a1, Option.some_bind,
    create_dir_all_of_mem _ cc _ a2, Option.some_bind]
  exact create_dir_all_of_mem _ cc _ a3

/-- Witness for C9: a concrete first run from an empty filesystem, then the
second run returns the same set of paths. -/
theorem create_dir_step_idempotent_witness :
    create_dir_step [[""], ["", "data"], ["", "data", "storage"], ["", "data", "memory"]]
      (fun _ => true) ["", "data"] =
      some [[""], ["", "data"], ["", "data", "storage"], ["", "data", "memory"]] :=
  create_dir_step_idempotent [] (fun _ => true) ["", "data"] _ (by decide)

/-- The character-level reading of `replace(' ', "%20")`: each space expands to
`%20`, every other character is kept unchanged. -/
theorem replaceSpaces_eq_bind (cs : List Char) :
    replaceSpaces cs = cs.flatMap (fun c => if c = ' ' then ['%', '2', '0'] else [c]) := by
  induction cs with
  | nil => rfl
  | cons c cs ih =>
    by_cases hc : c = ' ' <;> simp [replaceSpaces, hc, ih]

/-- C2: for every database file path, the `DATABASE_URL` value equals
`file://` followed by the path with every space character replaced by `%20`
and no other character changed; in particular `/a b/c.db` yields
`file:///a%20b/c.db`, and paths containing `%` or `#` pass through
unescaped. -/
theorem database_url_escaping :
    (∀ p : String, db_url_of p =
      "file://" ++ String.mk (p.data.flatMap (fun c => if c = ' ' then ['%', '2', '0'] else [c]))) ∧
    db_url_of "/a b/c.db" = "file:///a%20b/c.db" ∧
    db_url_of "/a%b#c.db" = "file:///a%b#c.db" := by
  refine ⟨fun p => ?_, by decide, by decide⟩
  unfold db_url_of
  rw [replaceSpaces_eq_bind]

/-- C1: the Supervisor's process slot obeys its state machine: a stop
(close-requested) before any start — no managed state — is a no-op that does
not fail; after a successful start the slot holds the child, and stop sends
the termination signal to exactly that child and leaves the slot empty; a
second stop observes the empty slot and is a no-op.  The slot has type
`Option Child`, so at most one live handle is stored at every point. -/
theorem supervisor_state_machine (c : Child) :
    on_window_event WindowEvent.closeRequested (StoreState.mk none) = (StoreState.mk none, none) ∧
    on_window_event WindowEvent.closeRequested
        (StoreState.mk (some (MutexSlot.mk false (some c)))) =
      (StoreState.mk (some (MutexSlot.mk false none)), some c) ∧
    on_window_event WindowEvent.closeRequested
        (StoreState.mk (some (MutexSlot.mk false none))) =
      (StoreState.mk (some (MutexSlot.mk false none)), none) :=
  ⟨rfl, rfl, rfl⟩

/-- C7: in a debug build configuration the ready (setup) handler performs no
filesystem or process operation — the world is returned unchanged — the
managed-state store never receives a Supervisor entry, and the close-requested
handler on that empty store is a no-op; the spawn path runs only when
`debug_assertions` is false. -/
theorem debug_build_no_spawn (w : World) :
    setup true w = SetupResult.mk w (StoreState.mk none) [] (Except.ok ()) ∧
    on_window_event WindowEvent.closeRequested (StoreState.mk none) = (StoreState.mk none, none) :=
  ⟨rfl, rfl⟩

/-- C8: for every state of the managed-state store the close-requested handler
is total and never panics: when no Supervisor entry is present it returns
without touching anything, and when one is present it proceeds normally
(taking the handle when the lock is healthy, silently skipping a poisoned
lock). -/
theorem close_handler_no_panic (s : StoreState) :
    (s.managed = none → on_window_event WindowEvent.closeRequested s = (s, none)) ∧
    (∀ c : Option Child, s.managed = some (MutexSlot.mk false c) →
      on_window_event WindowEvent.closeRequested s =
        (StoreState.mk (some (MutexSlot.mk false none)), c)) ∧
    (∀ c : Option Child, s.managed = some (MutexSlot.mk true c) →
      on_window_event WindowEvent.closeRequested s = (s, none)) := by
  obtain ⟨m⟩ := s
  refine ⟨fun h => ?_, fun c h => ?_, fun c h => ?_⟩ <;>
    simp only [StoreState.mk.injEq] at h <;> subst h <;> rfl

/-- Witness for C8: the poisoned-lock state, where the handler silently does
nothing. -/
theorem close_handler_no_panic_witness :
    on_window_event WindowEvent.closeRequested
        (StoreState.mk (some (MutexSlot.mk true none))) =
      (StoreState.mk (some (MutexSlot.mk true none)), none) :=
  (close_handler_no_panic (StoreState.mk (some (MutexSlot.mk true none)))).2.2 none rfl

/-- C3: launch planning fails with the entry-missing error if and only if the
entry artifact at `resourceDir/api/dist/index.js` does not exist at the time
the planning step runs (that is, once path resolution and directory creation
have succeeded); the error carries the expected path, and the artifact's
contents are never inspected — replacing the world's file contents `f` by an
arbitrary `g` leaves the result unchanged. -/
theorem entry_missing_iff (rd ad : Option Path) (ex : List Path) (cc : Path → Bool)
    (so : Bool) (spd : List CommandSpec) (f g : Path → String)
    (r a : Path) (ex1 ex2 ex3 : List Path)
    (hr : rd = some r) (ha : ad = some a)
    (h1 : create_dir_all ex cc a = some ex1)
    (h2 : create_dir_all ex1 cc (a ++ ["storage"]) = some ex2)
    (h3 : create_dir_all ex2 cc (a ++ ["memory"]) = some ex3) :
    ((spawn_api (World.mk rd ad ex cc so spd f)).2 =
        Except.error (ApiError.entryMissing (r ++ ["api", "dist", "index.js"])) ↔
      r ++ ["api", "dist", "index.js"] ∉ ex3) ∧
    (spawn_api (World.mk rd ad ex cc so spd g)).2 =
      (spawn_api (World.mk rd ad ex cc so spd f)).2 := by
  subst hr ha
  constructor
  · rw [spawn_api_resolved (World.mk (some r) (some a) ex cc so spd f) r a ex1 ex2 ex3
      rfl rfl h1 h2 h3]
    by_cases hE : r ++ ["api", "dist", "index.js"] ∈ ex3
    · cases so <;> simp [hE]
    · simp [hE]
  · exact spawn_api_snd_contents (some r) (some a) ex cc so spd f g

/-- Witness for C3: a concrete world with the entry artifact absent; the
planning step fails with the entry-missing error, and the result ignores the
file contents. -/
theorem entry_missing_iff_witness :
    ((spawn_api (World.mk (some ["", "res"]) (some ["", "data"]) [] (fun _ => true) true []
          (fun _ => ""))).2 =
        Except.error (ApiError.entryMissing (["", "res"] ++ ["api", "dist", "index.js"])) ↔
      ["", "res"] ++ ["api", "dist", "index.js"] ∉
        [[""], ["", "data"], ["", "data", "storage"], ["", "data", "memory"]]) ∧
    (spawn_api (World.mk (some ["", "res"]) (some ["", "data"]) [] (fun _ => true) true []
          (fun _ => "other contents"))).2 =
      (spawn_api (World.mk (some ["", "res"]) (some ["", "data"]) [] (fun _ => true) true []
          (fun _ => ""))).2 :=
  entry_missing_iff (some ["", "res"]) (some ["", "data"]) [] (fun _ => true) true []
    (fun _ => "") (fun _ => "other contents") ["", "res"] ["", "data"]
    [[""], ["", "data"]]
    [[""], ["", "data"], ["", "data", "storage"]]
    [[""], ["", "data"], ["", "data", "storage"], ["", "data", "memory"]]
    rfl rfl (by decide) (by decide) (by decide)

/-- C4: executable selection is a two-step policy: if a file exists at
`resourceDir/bin/node`, that path is used as the interpreter, otherwise the
bare name `node` — the selected program is `node_command_of`, which consults
only the filesystem and not the spawn oracle, so the selection is made
regardless of whether the name resolves on the machine; a resolution failure
surfaces only at spawn time, as the spawn error. -/
theorem executable_selection (w : World) (r a : Path) (ex1 ex2 ex3 : List Path)
    (hr : w.resourceDir = some r) (ha : w.appDataDir = some a)
    (h1 : create_dir_all w.existing w.canCreate a = some ex1)
    (h2 : create_dir_all ex1 w.canCreate (a ++ ["storage"]) = some ex2)
    (h3 : create_dir_all ex2 w.canCreate (a ++ ["memory"]) = some ex3)
    (hE : r ++ ["api", "dist", "index.js"] ∈ ex3) :
    ((spawn_api w).2 =
      if w.spawnOk then Except.ok (Child.mk (plan_spec r a ex3))
      else Except.error ApiError.spawnError) ∧
    (plan_spec r a ex3).program =
      (if r ++ ["bin", "node"] ∈ ex3 then render (r ++ ["bin", "node"]) else "node") ∧
    ((spawn_api w).2 = Except.error ApiError.spawnError ↔ w.spawnOk = false) := by
  rw [spawn_api_resolved w r a ex1 ex2 ex3 hr ha h1 h2 h3, if_pos hE]
  refine ⟨?_, rfl, ?_⟩ <;> cases hs : w.spawnOk <;> simp [hs]

/-- Witness for C4: a concrete world where the entry artifact exists, no
bundled interpreter is present, and the bare name does not resolve; the
failure surfaces as the spawn error exactly because the spawn oracle said
no. -/
theorem executable_selection_witness :
    (spawn_api (World.mk (some ["", "res"]) (some ["", "data"])
          [["", "res", "api", "dist", "index.js"]] (fun _ => true) false []
          (fun _ => ""))).2 =
        Except.error ApiError.spawnError ↔
      (World.mk (some ["", "res"]) (some ["", "data"])
          [["", "res", "api", "dist", "index.js"]] (fun _ => true) false []
          (fun _ => "")).spawnOk = false :=
  (executable_selection
    (World.mk (some ["", "res"]) (some ["", "data"])
      [["", "res", "api", "dist", "index.js"]] (fun _ => true) false [] (fun _ => ""))
    ["", "res"] ["", "data"]
    [["", "res", "api", "dist", "index.js"], [""], ["", "data"]]
    [["", "res", "api", "dist", "index.js"], [""], ["", "data"], ["", "data", "storage"]]
    [["", "res", "api", "dist", "index.js"], [""], ["", "data"], ["", "data", "storage"],
      ["", "data", "memory"]]
    rfl rfl (by decide) (by decide) (by decide) (by decide)).2.2

/-- C5: the worker is spawned with exactly one command-line argument (the
entry artifact path), working directory `resourceDir/api`, exactly the four
environment additions NODE_PATH = `resourceDir/node_modules`, DATABASE_URL,
STORAGE_PATH = `appDataDir/storage`, MEMORY_PATH = `appDataDir/memory`,
standard input closed (null) and standard output and error inherited; the
spawn call recorded in the world carries exactly that configuration. -/
theorem spawn_contract (w : World) (r a : Path) (ex1 ex2 ex3 : List Path)
    (hr : w.resourceDir = some r) (ha : w.appDataDir = some a)
    (h1 : create_dir_all w.existing w.canCreate a = some ex1)
    (h2 : create_dir_all ex1 w.canCreate (a ++ ["storage"]) = some ex2)
    (h3 : create_dir_all ex2 w.canCreate (a ++ ["memory"]) = some ex3)
    (hE : r ++ ["api", "dist", "index.js"] ∈ ex3) (hs : w.spawnOk = true) :
    (spawn_api w).2 =
      Except.ok (Child.mk
        { program := node_command_of r ex3
          args := [render (r ++ ["api", "dist", "index.js"])]
          cwd := render (r ++ ["api"])
          envs := [("NODE_PATH", render (r ++ ["node_modules"])),
                   ("DATABASE_URL", db_url_of (render (a ++ ["pro-chat.db"]))),
                   ("STORAGE_PATH", render (a ++ ["storage"])),
                   ("MEMORY_PATH", render (a ++ ["memory"]))]
          stdin := Stdio.null
          stdout := Stdio.inherit
          stderr := Stdio.inherit }) ∧
    (spawn_api w).1.spawned = w.spawned ++
      [{ program := node_command_of r ex3
         args := [render (r ++ ["api", "dist", "index.js"])]
         cwd := render (r ++ ["api"])
         envs := [("NODE_PATH", render (r ++ ["node_modules"])),
                  ("DATABASE_URL", db_url_of (render (a ++ ["pro-chat.db"]))),
                  ("STORAGE_PATH", render (a ++ ["storage"])),
                  ("MEMORY_PATH", render (a ++ ["memory"]))]
         stdin := Stdio.null
         stdout := Stdio.inherit
         stderr := Stdio.inherit }] := by
  rw [spawn_api_resolved w r a ex1 ex2 ex3 hr ha h1 h2 h3, if_pos hE, if_pos hs]
  exact ⟨rfl, rfl⟩

/-- Witness for C5: a concrete successful spawn; the recorded command has the
single entry argument, the api working directory, the four environment
variables, null stdin and inherited stdout/stderr. -/
theorem spawn_contract_witness :
    (spawn_api (World.mk (some ["", "opt"]) (some ["", "home"])
          [["", "opt", "api", "dist", "index.js"]] (fun _ => true) true []
          (fun _ => ""))).2 =
      Except.ok (Child.mk
        { program := node_command_of ["", "opt"]
            [["", "opt", "api", "dist", "index.js"], [""], ["", "home"], ["", "home", "storage"],
             ["", "home", "memory"]]
          args := [render (["", "opt"] ++ ["api", "dist", "index.js"])]
          cwd := render (["", "opt"] ++ ["api"])
          envs := [("NODE_PATH", render (["", "opt"] ++ ["node_modules"])),
                   ("DATABASE_URL", db_url_of (render (["", "home"] ++ ["pro-chat.db"]))),
                   ("STORAGE_PATH", render (["", "home"] ++ ["storage"])),
                   ("MEMORY_PATH", render (["", "home"] ++ ["memory"]))]
          stdin := Stdio.null
          stdout := Stdio.inherit
          stderr := Stdio.inherit }) :=
  (spawn_contract
    (World.mk (some ["", "opt"]) (some ["", "home"])
      [["", "opt", "api", "dist", "index.js"]] (fun _ => true) true [] (fun _ => ""))
    ["", "opt"] ["", "home"]
    [["", "opt", "api", "dist", "index.js"], [""], ["", "home"]]
    [["", "opt", "api", "dist", "index.js"], [""], ["", "home"], ["", "home", "storage"]]
    [["", "opt", "api", "dist", "index.js"], [""], ["", "home"], ["", "home", "storage"],
      ["", "home", "memory"]]
    rfl rfl (by decide) (by decide) (by decide) (by decide) rfl).1

/-- C6: every error arising during path resolution, directory creation,
planning, or spawn is caught at the lifecycle bridge: the setup closure
records it on the diagnostic stream, discards it, stores no Supervisor entry
(the managed-state slot stays absent), and still returns `Ok(())` — indeed
the setup closure returns `Ok(())` for every build configuration and world,
so application startup continues and the window opens. -/
theorem setup_swallows_errors (w w' : World) (e : ApiError)
    (h : spawn_api w = (w', Except.error e)) :
    setup false w = SetupResult.mk w' (StoreState.mk none) [e] (Except.ok ()) ∧
    (∀ (b : Bool) (w0 : World), (setup b w0).ret = Except.ok ()) := by
  constructor
  · simp [setup, h]
  · intro b w0
    cases b with
    | true => rfl
    | false =>
      rcases hsp : spawn_api w0 with ⟨w1, res⟩
      cases res <;> simp [setup, hsp]

/-- Witness for C6: a world where the host framework cannot resolve the base
directories; the setup closure logs the resolution error, stores nothing and
returns `Ok(())`. -/
theorem setup_swallows_errors_witness :
    setup false (World.mk none none [] (fun _ => true) true [] (fun _ => "")) =
      SetupResult.mk (World.mk none none [] (fun _ => true) true [] (fun _ => ""))
        (StoreState.mk none) [ApiError.resolutionError] (Except.ok ()) :=
  (setup_swallows_errors (World.mk none none [] (fun _ => true) true [] (fun _ => ""))
    (World.mk none none [] (fun _ => true) true [] (fun _ => ""))
    ApiError.resolutionError rfl).1

/-- C10: the failure path for a missing entry artifact is not atomic with
respect to the filesystem: when the entry artifact is absent (and the earlier
steps succeeded), `spawn_api` returns the entry-missing error, yet the
returned world already lists `appDataDir`, `appDataDir/storage` and
`appDataDir/memory` among the existing paths — the writable directories stay
created on disk. -/
theorem entry_missing_after_dir_creation (w : World) (r a : Path) (ex1 ex2 ex3 : List Path)
    (hr : w.resourceDir = some r) (ha : w.appDataDir = some a)
    (h1 : create_dir_all w.existing w.canCreate a = some ex1)
    (h2 : create_dir_all ex1 w.canCreate (a ++ ["storage"]) = some ex2)
    (h3 : create_dir_all ex2 w.canCreate (a ++ ["memory"]) = some ex3)
    (hne : r ++ ["api", "dist", "index.js"] ∉ ex3) (hA : a ≠ []) :
    (spawn_api w).2 =
      Except.error (ApiError.entryMissing (r ++ ["api", "dist", "index.js"])) ∧
    a ∈ (spawn_api w).1.existing ∧
    a ++ ["storage"] ∈ (spawn_api w).1.existing ∧
    a ++ ["memory"] ∈ (spawn_api w).1.existing := by
  rw [spawn_api_resolved w r a ex1 ex2 ex3 hr ha h1 h2 h3, if_neg hne]
  have m12 := sub_of_create_dir_all _ _ _ _ h2
  have m23 := sub_of_create_dir_all _ _ _ _ h3
  refine ⟨rfl, ?_, ?_, ?_⟩
  · exact m23 _ (m12 _ (ancestors_sub_of_create_dir_all _ _ _ _ h1 a (self_mem_ancestors a hA)))
  · exact m23 _ (ancestors_sub_of_create_dir_all _ _ _ _ h2 _
      (self_mem_ancestors (a ++ ["storage"]) (by simp)))
  · exact ancestors_sub_of_create_dir_all _ _ _ _ h3 _
      (self_mem_ancestors (a ++ ["memory"]) (by simp))

/-- Witness for C10: a concrete launch that fails with the entry-missing
error after having created the three writable directories. -/
theorem entry_missing_after_dir_creation_witness :
    (spawn_api (World.mk (some ["", "opt", "app"]) (some ["", "var", "data"]) []
          (fun _ => true) true [] (fun _ => ""))).2 =
      Except.error (ApiError.entryMissing (["", "opt", "app"] ++ ["api", "dist", "index.js"])) ∧
    ["", "var", "data"] ∈
      (spawn_api (World.mk (some ["", "opt", "app"]) (some ["", "var", "data"]) []
          (fun _ => true) true [] (fun _ => ""))).1.existing ∧
    ["", "var", "data"] ++ ["storage"] ∈
      (spawn_api (World.mk (some ["", "opt", "app"]) (some ["", "var", "data"]) []
          (fun _ => true) true [] (fun _ => ""))).1.existing ∧
    ["", "var", "data"] ++ ["memory"] ∈
      (spawn_api (World.mk (some ["", "opt", "app"]) (some ["", "var", "data"]) []
          (fun _ => true) true [] (fun _ => ""))).1.existing :=
  entry_missing_after_dir_creation
    (World.mk (some ["", "opt", "app"]) (some ["", "var", "data"]) []
      (fun _ => true) true [] (fun _ => ""))
    ["", "opt", "app"] ["", "var", "data"]
    [[""], ["", "var"], ["", "var", "data"]]
    [[""], ["", "var"], ["", "var", "data"], ["", "var", "data", "storage"]]
    [[""], ["", "var"], ["", "var", "data"], ["", "var", "data", "storage"],
      ["", "var", "data", "memory"]]
    rfl rfl (by decide) (by decide) (by decide) (by decide) (by decide)

end ProChat
